import Mathlib

/-!
Verification of the `terraform-provider-publicip` provider core.

This file gives a shallow embedding of the provider's logic:

* a model of `inet.af/netaddr` IP parsing and rendering, as used by the
  data source (`netaddr.ParseIP`, `IP.Is4`, `IP.Is6`, `IP.String`);
* the `ipVersion` classifier of `internal/provider` (part_000 revision);
* a model of the JSON decoding of the upstream `IPResponse` body
  (`encoding/json` semantics restricted to what the struct uses);
* the `Read` flow of the `publicip_address` data source (part_000
  revision), with the HTTP transport, the rate limiter outcome and the
  upstream response abstracted into an environment record;
* the provider `Configure` flow (`provider.go`), with Go's
  `time.ParseDuration` modelled and `url.Parse` modelled by its
  control-character rejection;
* a lookup pipeline modelled from the specification for the revision of
  the data source that accepts both `source_ip` and `ip_version`
  (its `Read` is referenced by `IpProvider.DataSources` via
  `NewIpDataSource` but its source file is not part of the sources
  at hand).

Machine integers are modelled as `Nat`/`Int` with explicit bounds where
they matter.  All definitions are executable.
-/

set_option autoImplicit false

namespace PublicIP

/-! ## Decimal and hexadecimal rendering helpers -/

def digitChar (n : Nat) : Char := Char.ofNat (48 + n % 10)

def natStrAux : Nat → Nat → List Char → List Char
  | 0, _, acc => acc
  | fuel + 1, n, acc =>
    if n < 10 then digitChar n :: acc
    else natStrAux fuel (n / 10) (digitChar (n % 10) :: acc)

/-- Decimal rendering of a natural number (as Go's `%d`). -/
def natStr (n : Nat) : String := String.mk (natStrAux (n + 1) n [])

def hexChar (n : Nat) : Char :=
  if n < 10 then Char.ofNat (48 + n) else Char.ofNat (87 + n)

/-- Lowercase hexadecimal rendering of one 16-bit IPv6 group, without
leading zeros (as Go's `net/netip` renders groups). -/
def hexStr (n : Nat) : String :=
  let a := n / 4096 % 16
  let b := n / 256 % 16
  let c := n / 16 % 16
  let d := n % 16
  if a ≠ 0 then String.mk [hexChar a, hexChar b, hexChar c, hexChar d]
  else if b ≠ 0 then String.mk [hexChar b, hexChar c, hexChar d]
  else if c ≠ 0 then String.mk [hexChar c, hexChar d]
  else String.mk [hexChar d]

/-! ## The `netaddr.IP` model

`inet.af/netaddr` represents an IP as either the zero (unset) value, an
IPv4 address, or an IPv6 address (IPv4-mapped IPv6 addresses are kept in
16-byte form: `Is4` is false for them, `Is6` is true).  Zones are not
used anywhere by the provider and are not modelled. -/

inductive IP where
  | zero
  | v4 (a b c d : Nat)
  | v6 (g0 g1 g2 g3 g4 g5 g6 g7 : Nat)
deriving Repr, DecidableEq

/-- `netaddr.IP.Is4`: true exactly for 4-byte IPv4 addresses (false for
IPv4-mapped IPv6 and for the zero IP). -/
def IP.Is4 : IP → Bool
  | .v4 _ _ _ _ => true
  | _ => false

/-- `netaddr.IP.Is6`: true exactly for 16-byte IPv6 addresses (including
IPv4-mapped ones), false for the zero IP. -/
def IP.Is6 : IP → Bool
  | .v6 _ _ _ _ _ _ _ _ => true
  | _ => false

/-- `netaddr.IP.IsZero`: true only for the zero (unset) value. -/
def IP.IsZero : IP → Bool
  | .zero => true
  | _ => false

/-! ### Parsing (`netaddr.ParseIP`) -/

def splitOnChar (sep : Char) : List Char → List (List Char)
  | [] => [[]]
  | c :: rest =>
    let r := splitOnChar sep rest
    if c = sep then [] :: r
    else
      match r with
      | h :: t => (c :: h) :: t
      | [] => [[c]]

def digitVal (c : Char) : Nat := c.toNat - 48

def allDigits (cs : List Char) : Bool := cs.all (·.isDigit)

/-- One dotted-decimal IPv4 field: 1-3 digits, value at most 255, no
leading zero (as `netaddr`/`netip` require). -/
def parseDecOctet (cs : List Char) : Option Nat :=
  match cs with
  | [] => none
  | ['0'] => some 0
  | '0' :: _ => none
  | _ =>
    if cs.length ≤ 3 ∧ allDigits cs then
      let v := cs.foldl (fun a c => a * 10 + digitVal c) 0
      if v ≤ 255 then some v else none
    else none

def parseIPv4cs (cs : List Char) : Option (Nat × Nat × Nat × Nat) :=
  match splitOnChar '.' cs with
  | [a, b, c, d] =>
    match parseDecOctet a, parseDecOctet b, parseDecOctet c, parseDecOctet d with
    | some x, some y, some z, some w => some (x, y, z, w)
    | _, _, _, _ => none
  | _ => none

def hexVal (c : Char) : Option Nat :=
  if '0' ≤ c ∧ c ≤ '9' then some (c.toNat - 48)
  else if 'a' ≤ c ∧ c ≤ 'f' then some (c.toNat - 87)
  else if 'A' ≤ c ∧ c ≤ 'F' then some (c.toNat - 55)
  else none

/-- One IPv6 group: 1-4 hexadecimal digits. -/
def parseHexGroup (cs : List Char) : Option Nat :=
  if cs = [] ∨ 4 < cs.length then none
  else cs.foldl (fun acc c =>
    match acc, hexVal c with
    | some a, some d => some (a * 16 + d)
    | _, _ => none) (some 0)

/-- Locate the first `::` of an IPv6 literal and split around it. -/
def findDC : List Char → Option (List Char × List Char)
  | ':' :: ':' :: r => some ([], r)
  | c :: r => (findDC r).map fun p => (c :: p.1, p.2)
  | [] => none

def hasDC : List Char → Bool
  | ':' :: ':' :: _ => true
  | _ :: r => hasDC r
  | [] => false

/-- Parse the colon-separated fields of one side of an IPv6 literal into
16-bit groups; only the final field of the address may be an embedded
dotted-decimal IPv4 suffix (two groups). -/
def parseFieldsAux : List (List Char) → Bool → Option (List Nat)
  | [], _ => some []
  | [f], allowV4 =>
    if allowV4 ∧ f.contains '.' then
      (parseIPv4cs f).map fun (a, b, c, d) => [a * 256 + b, c * 256 + d]
    else (parseHexGroup f).map fun g => [g]
  | f :: rest, allowV4 =>
    match parseHexGroup f, parseFieldsAux rest allowV4 with
    | some g, some gs => some (g :: gs)
    | _, _ => none

def parseSide (cs : List Char) (allowV4 : Bool) : Option (List Nat) :=
  if cs.isEmpty then some [] else parseFieldsAux (splitOnChar ':' cs) allowV4

/-- Parse an IPv6 literal into its eight 16-bit groups.  Without `::`
exactly eight groups are required; with one `::` at most seven groups may
be written and the gap is filled with zero groups. -/
def parseIPv6cs (cs : List Char) : Option (List Nat) :=
  match findDC cs with
  | none =>
    match parseSide cs true with
    | some gs => if gs.length = 8 then some gs else none
    | none => none
  | some (l, r) =>
    if hasDC r then none
    else
      match parseSide l false, parseSide r true with
      | some gl, some gr =>
        if gl.length + gr.length ≤ 7 then
          some (gl ++ List.replicate (8 - gl.length - gr.length) 0 ++ gr)
        else none
      | _, _ => none

inductive SepKind where
  | dot
  | colon
  | nosep
deriving Repr, DecidableEq

/-- The first `.` or `:` decides the family, as in `netaddr.ParseIP`. -/
def firstSep : List Char → SepKind
  | [] => .nosep
  | '.' :: _ => .dot
  | ':' :: _ => .colon
  | _ :: r => firstSep r

/-- `netaddr.ParseIP`.  A successful parse is always a `v4` or a `v6`
address, never the zero IP. -/
def ParseIP (s : String) : Option IP :=
  match firstSep s.data with
  | .dot => (parseIPv4cs s.data).map fun (a, b, c, d) => .v4 a b c d
  | .colon =>
    match parseIPv6cs s.data with
    | some [g0, g1, g2, g3, g4, g5, g6, g7] => some (.v6 g0 g1 g2 g3 g4 g5 g6 g7)
    | _ => none
  | .nosep => none

/-! ### Rendering (`netaddr.IP.String`) -/

def joinColon : List String → String
  | [] => ""
  | [s] => s
  | s :: rest => s ++ ":" ++ joinColon rest

def zeroRunAt (gs : List Nat) (i : Nat) : Nat :=
  ((gs.drop i).takeWhile (· = 0)).length

/-- The leftmost longest run (length at least two) of zero groups, as
compressed by the canonical rendering. -/
def bestRun (gs : List Nat) : Option (Nat × Nat) :=
  (List.range 8).foldl
    (fun best i =>
      let l := zeroRunAt gs i
      if 2 ≤ l then
        match best with
        | none => some (i, l)
        | some p => if p.2 < l then some (i, l) else best
      else best)
    none

def v6Render (gs : List Nat) : String :=
  match bestRun gs with
  | none => joinColon (gs.map hexStr)
  | some (i, l) =>
    joinColon ((gs.take i).map hexStr) ++ "::" ++ joinColon ((gs.drop (i + l)).map hexStr)

/-- `netaddr.IP.String`: canonical rendering (IPv4 dotted decimal,
IPv4-mapped addresses with a `::ffff:` prefix, compressed lowercase
hexadecimal otherwise). -/
def IP.render : IP → String
  | .zero => "invalid IP"
  | .v4 a b c d => natStr a ++ "." ++ natStr b ++ "." ++ natStr c ++ "." ++ natStr d
  | .v6 g0 g1 g2 g3 g4 g5 g6 g7 =>
    if g0 = 0 ∧ g1 = 0 ∧ g2 = 0 ∧ g3 = 0 ∧ g4 = 0 ∧ g5 = 65535 then
      "::ffff:" ++ natStr (g6 / 256) ++ "." ++ natStr (g6 % 256) ++ "."
        ++ natStr (g7 / 256) ++ "." ++ natStr (g7 % 256)
    else v6Render [g0, g1, g2, g3, g4, g5, g6, g7]

/-! ## The `ipVersion` classifier (part_000 revision) -/

def IPVersion4 : String := "v4"
def IPVersion6 : String := "v6"
def IPUnknown : String := "unknown"

/-- `ipVersion` of the part_000 data source: `v6` for a 16-byte address,
`v4` for a 4-byte address, `unknown` otherwise (only the zero IP). -/
def ipVersion (netIP : IP) : String :=
  if netIP.Is6 then IPVersion6
  else if netIP.Is4 then IPVersion4
  else IPUnknown


/-! ## JSON decoding of the upstream body (`encoding/json` into `IPResponse`)

The decoder models `json.NewDecoder(body).Decode(&IPResponse{...})`:
one JSON value is read (trailing input is ignored by `Decoder.Decode`),
the top level must be an object (or `null`, which leaves the struct at
its zero value), unknown keys are skipped, keys match struct tags
ASCII-case-insensitively, a `null` member value leaves the field
unchanged, and a member whose value has the wrong type for its field is
an error.  `latitude`/`longitude` are `float32` fields: their values are
type-checked but not represented (floating point is not modelled and the
provider never reads them).  The `user_agent` object is type-checked as
an object; its inner fields are syntax-checked only.  `\u` escapes are
decoded as single code units (surrogates rejected). -/

/-- The `IPResponse` struct of `ip_response.go` (the fields whose values
the provider reads, plus the typed fields the decoder checks). -/
structure IPResponse where
  IP : String := ""
  IPDecimal : Int := 0
  Country : String := ""
  CountryISO : String := ""
  CountryEU : Bool := false
  RegionName : String := ""
  RegionCode : String := ""
  ZIPCode : String := ""
  City : String := ""
  TimeZone : String := ""
  ASN : String := ""
  ASNOrg : String := ""
deriving Repr, DecidableEq

def jIsWs (c : Char) : Bool := c = ' ' ∨ c = '\t' ∨ c = '\n' ∨ c = '\r'

def jSkipWs (cs : List Char) : List Char := cs.dropWhile jIsWs

def hex4 (a b c d : Char) : Option Nat :=
  match hexVal a, hexVal b, hexVal c, hexVal d with
  | some x, some y, some z, some w => some (((x * 16 + y) * 16 + z) * 16 + w)
  | _, _, _, _ => none

/-- Body of a JSON string after the opening quote. -/
def jstrAux : Nat → List Char → List Char → Option (String × List Char)
  | 0, _, _ => none
  | fuel + 1, cs, acc =>
    match cs with
    | [] => none
    | '"' :: r => some (String.mk acc.reverse, r)
    | '\\' :: e :: r =>
      match e with
      | '"' => jstrAux fuel r ('"' :: acc)
      | '\\' => jstrAux fuel r ('\\' :: acc)
      | '/' => jstrAux fuel r ('/' :: acc)
      | 'b' => jstrAux fuel r (Char.ofNat 8 :: acc)
      | 'f' => jstrAux fuel r (Char.ofNat 12 :: acc)
      | 'n' => jstrAux fuel r ('\n' :: acc)
      | 'r' => jstrAux fuel r ('\r' :: acc)
      | 't' => jstrAux fuel r ('\t' :: acc)
      | 'u' =>
        match r with
        | h1 :: h2 :: h3 :: h4 :: r2 =>
          match hex4 h1 h2 h3 h4 with
          | some v =>
            if 55296 ≤ v ∧ v ≤ 57343 then none
            else jstrAux fuel r2 (Char.ofNat v :: acc)
          | none => none
        | _ => none
      | _ => none
    | c :: r => if c.toNat < 32 then none else jstrAux fuel r (c :: acc)

def spanDigits (cs : List Char) : List Char × List Char :=
  (cs.takeWhile (·.isDigit), cs.dropWhile (·.isDigit))

/-- A JSON number literal; returns the raw literal and the rest. -/
def parseJNum (cs : List Char) : Option (String × List Char) :=
  let (sign, cs1) := match cs with
    | '-' :: r => (['-'], r)
    | r => (([] : List Char), r)
  let intPart : Option (List Char × List Char) :=
    match cs1 with
    | '0' :: r =>
      match r with
      | c :: _ => if c.isDigit then none else some (['0'], r)
      | [] => some (['0'], [])
    | c :: _ =>
      if c.isDigit then some (spanDigits cs1) else none
    | [] => none
  match intPart with
  | none => none
  | some (ip, r1) =>
    let (fp, r2) : List Char × List Char :=
      match r1 with
      | '.' :: r => (let (ds, r') := spanDigits r; if ds = [] then ([], r1) else ('.' :: ds, r'))
      | _ => ([], r1)
    let fracOk : Bool := match r1 with
      | '.' :: r => !(spanDigits r).1.isEmpty
      | _ => true
    if fracOk = false then none
    else
      let (ep, r3) : List Char × List Char :=
        match r2 with
        | 'e' :: r => (let p := spanExp r; if p.1 = [] then ([], r2) else ('e' :: p.1, p.2))
        | 'E' :: r => (let p := spanExp r; if p.1 = [] then ([], r2) else ('E' :: p.1, p.2))
        | _ => ([], r2)
      let expOk : Bool := match r2 with
        | 'e' :: r => !(spanExp r).1.isEmpty
        | 'E' :: r => !(spanExp r).1.isEmpty
        | _ => true
      if expOk = false then none
      else some (String.mk (sign ++ ip ++ fp ++ ep), r3)
where
  spanExp (r : List Char) : List Char × List Char :=
    match r with
    | '+' :: r' => (let (ds, rr) := spanDigits r'; if ds = [] then ([], r) else ('+' :: ds, rr))
    | '-' :: r' => (let (ds, rr) := spanDigits r'; if ds = [] then ([], r) else ('-' :: ds, rr))
    | _ => spanDigits r

/-- Skip one syntactically valid JSON value (mode `value`), the rest of
an object (mode `objRest`) or the rest of an array (mode `arrRest`). -/
inductive JPMode where
  | value
  | objRest (allowBrace : Bool)
  | arrRest (allowBracket : Bool)

def jskip : Nat → JPMode → List Char → Option (List Char)
  | 0, _, _ => none
  | fuel + 1, .value, cs =>
    match jSkipWs cs with
    | '"' :: r => (jstrAux (r.length + 1) r []).map (·.2)
    | '{' :: r => jskip fuel (.objRest true) r
    | '[' :: r => jskip fuel (.arrRest true) r
    | 't' :: 'r' :: 'u' :: 'e' :: r => some r
    | 'f' :: 'a' :: 'l' :: 's' :: 'e' :: r => some r
    | 'n' :: 'u' :: 'l' :: 'l' :: r => some r
    | c :: r =>
      if c = '-' ∨ c.isDigit then (parseJNum (c :: r)).map (·.2) else none
    | [] => none
  | fuel + 1, .objRest allowBrace, cs =>
    match jSkipWs cs with
    | '}' :: r => if allowBrace then some r else none
    | '"' :: r =>
      match jstrAux (r.length + 1) r [] with
      | none => none
      | some (_, r2) =>
        match jSkipWs r2 with
        | ':' :: r3 =>
          match jskip fuel .value r3 with
          | none => none
          | some r4 =>
            match jSkipWs r4 with
            | ',' :: r5 => jskip fuel (.objRest false) r5
            | '}' :: r5 => some r5
            | _ => none
        | _ => none
    | _ => none
  | fuel + 1, .arrRest allowBracket, cs =>
    match jSkipWs cs with
    | ']' :: r => if allowBracket then some r else none
    | cs2 =>
      match jskip fuel .value cs2 with
      | none => none
      | some r2 =>
        match jSkipWs r2 with
        | ',' :: r3 => jskip fuel (.arrRest false) r3
        | ']' :: r3 => some r3
        | _ => none

/-- The kind (and, for scalars, content) of one JSON member value. -/
inductive JTok where
  | s (v : String)
  | n (raw : String)
  | b (v : Bool)
  | nul
  | o
  | a
deriving Repr, DecidableEq

def classifyJVal (cs : List Char) : Option (JTok × List Char) :=
  match jSkipWs cs with
  | '"' :: r => (jstrAux (r.length + 1) r []).map fun p => (.s p.1, p.2)
  | '{' :: r => (jskip (r.length + 1) (.objRest true) r).map fun r2 => (.o, r2)
  | '[' :: r => (jskip (r.length + 1) (.arrRest true) r).map fun r2 => (.a, r2)
  | 't' :: 'r' :: 'u' :: 'e' :: r => some (.b true, r)
  | 'f' :: 'a' :: 'l' :: 's' :: 'e' :: r => some (.b false, r)
  | 'n' :: 'u' :: 'l' :: 'l' :: r => some (.nul, r)
  | c :: r =>
    if c = '-' ∨ c.isDigit then (parseJNum (c :: r)).map fun p => (.n p.1, p.2) else none
  | [] => none

def asciiLower (c : Char) : Char :=
  if 'A' ≤ c ∧ c ≤ 'Z' then Char.ofNat (c.toNat + 32) else c

def keyEq (a b : String) : Bool :=
  a.data.map asciiLower = b.data.map asciiLower

def natFromDigits (cs : List Char) : Nat :=
  cs.foldl (fun a c => a * 10 + digitVal c) 0

def int64Max : Int := 9223372036854775807

def int64Min : Int := -9223372036854775808

/-- Whether a JSON number literal is an integer literal representable as
an `int64` (what decoding into the `int64` field requires). -/
def int64Lit (raw : String) : Option Int :=
  match raw.data with
  | '-' :: ds =>
    if ds ≠ [] ∧ allDigits ds then
      let v : Int := -(natFromDigits ds : Int)
      if int64Min ≤ v then some v else none
    else none
  | ds =>
    if ds ≠ [] ∧ allDigits ds then
      let v : Int := (natFromDigits ds : Int)
      if v ≤ int64Max then some v else none
    else none

/-- Apply one decoded object member to the struct (Go field-tag
matching; `null` leaves the field unchanged; wrong types are errors;
unknown keys are ignored). -/
def applyField (key : String) (tok : JTok) (acc : IPResponse) : Option IPResponse :=
  if tok = .nul then some acc
  else if keyEq key ("ip") then
    match tok with
    | .s v => some { acc with IP := v }
    | _ => none
  else if keyEq key ("ip_decimal") then
    match tok with
    | .n raw => (int64Lit raw).map fun v => { acc with IPDecimal := v }
    | _ => none
  else if keyEq key ("country") then
    match tok with
    | .s v => some { acc with Country := v }
    | _ => none
  else if keyEq key ("country_iso") then
    match tok with
    | .s v => some { acc with CountryISO := v }
    | _ => none
  else if keyEq key ("country_eu") then
    match tok with
    | .b v => some { acc with CountryEU := v }
    | _ => none
  else if keyEq key ("region_name") then
    match tok with
    | .s v => some { acc with RegionName := v }
    | _ => none
  else if keyEq key ("region_code") then
    match tok with
    | .s v => some { acc with RegionCode := v }
    | _ => none
  else if keyEq key ("zip_code") then
    match tok with
    | .s v => some { acc with ZIPCode := v }
    | _ => none
  else if keyEq key ("city") then
    match tok with
    | .s v => some { acc with City := v }
    | _ => none
  else if keyEq key ("latitude") then
    match tok with
    | .n _ => some acc
    | _ => none
  else if keyEq key ("longitude") then
    match tok with
    | .n _ => some acc
    | _ => none
  else if keyEq key ("time_zone") then
    match tok with
    | .s v => some { acc with TimeZone := v }
    | _ => none
  else if keyEq key ("asn") then
    match tok with
    | .s v => some { acc with ASN := v }
    | _ => none
  else if keyEq key ("asn_org") then
    match tok with
    | .s v => some { acc with ASNOrg := v }
    | _ => none
  else if keyEq key ("user_agent") then
    match tok with
    | .o => some acc
    | _ => none
  else some acc

/-- The members of the top-level object, applied left to right (for a
duplicated key the last member wins, as in `encoding/json`). -/
def parseTopFields : Nat → List Char → IPResponse → Bool → Option IPResponse
  | 0, _, _, _ => none
  | fuel + 1, cs, acc, allowBrace =>
    match jSkipWs cs with
    | '}' :: _ => if allowBrace then some acc else none
    | '"' :: r =>
      match jstrAux (r.length + 1) r [] with
      | none => none
      | some (key, r2) =>
        match jSkipWs r2 with
        | ':' :: r3 =>
          match classifyJVal r3 with
          | none => none
          | some (tok, r4) =>
            match applyField key tok acc with
            | none => none
            | some acc2 =>
              match jSkipWs r4 with
              | ',' :: r5 => parseTopFields fuel r5 acc2 false
              | '}' :: _ => some acc2
              | _ => none
        | _ => none
    | _ => none

/-- `json.NewDecoder(resp.Body).Decode(new(IPResponse))`. -/
def decodeIPResponse (body : String) : Option IPResponse :=
  match jSkipWs body.data with
  | '{' :: r => parseTopFields (r.length + 1) r {} true
  | 'n' :: 'u' :: 'l' :: 'l' :: _ => some {}
  | _ => none

/-! ## The `Read` flow of the part_000 data source

The HTTP layer is abstracted into an environment: whether the rate
limiter's `Wait` returned an error (its timing is outside the model),
whether `client.Do` failed, and the upstream response (status code,
status text, raw body).  `forceNetwork` only affects how the connection
is dialed, never the produced values, and is not modelled.  The
`requestCount` of an outcome counts the `client.Do` calls performed. -/

/-- One `resp.Diagnostics.AddError(summary, detail)` entry. -/
structure Diag where
  summary : String
  detail : String
deriving Repr, DecidableEq

/-- The computed state fields of `ipDataSourceData` (part_000). -/
structure IpState where
  ID : String
  IPVersion : String
  IsIPv6 : Bool
  IsIPv4 : Bool
  IP : String
  ASNID : String
  ASNOrg : String
  SourceIP : String
deriving Repr, DecidableEq

/-- The configuration of one `publicip_address` block: the optional
`source_ip` attribute (`none` models a null value). -/
structure ReadInput where
  sourceIP : Option String
deriving Repr, DecidableEq

/-- Environment of one `Read` call. -/
structure HttpEnv where
  rateLimitWaitErr : Bool
  transportErr : Bool
  statusCode : Nat
  status : String
  body : String
deriving Repr, DecidableEq

/-- Result of one `Read` call: the diagnostics added, the state set (if
the flow reached `resp.State.Set`), and how many HTTP requests were
performed. -/
structure ReadOutcome where
  diags : List Diag
  state : Option IpState
  requestCount : Nat
deriving Repr, DecidableEq

def invalidIPDiag (s : String) : Diag :=
  ⟨"Invalid IP", "The IP '" ++ s ++ "' could not be parsed as valid IP"⟩

def rateLimitDiag : Diag :=
  ⟨"Error waiting for rate limit",
   "There was an error while awaiting a slot from the rate limiter"⟩

def transportDiag : Diag :=
  ⟨"Error fetching information from the IP information provider",
   "There was an error when contacting the IP information provider"⟩

def statusDiag (code : Nat) (status : String) : Diag :=
  ⟨"Error in response from the IP information provider",
   "The IP information provider responded with the status code "
     ++ natStr code ++ " '" ++ status ++ "'"⟩

def decodeDiag : Diag :=
  ⟨"Error parsing the response from the IP information provider",
   "There was an error when parsing the response from the IP information provider"⟩

def responseIPDiag (ip : String) : Diag :=
  ⟨"Error parsing the IP from the IP information provider",
   "There was an error when parsing the IP '" ++ ip
     ++ "' of the response from the IP information provider"⟩

/-- `data.SourceIP.Null` is normalized to the empty string first. -/
def sourceIPString (src : Option String) : String :=
  match src with
  | none => ""
  | some s => s

/-- The source-IP validation of `Read`: an empty string means no
constraint; otherwise `netaddr.ParseIP` must succeed and yield a valid
(non-zero) address. -/
def checkSource (s : String) : Except Diag (Option IP) :=
  if s = "" then .ok none
  else
    match ParseIP s with
    | none => .error (invalidIPDiag s)
    | some ip => if ip.IsZero then .error (invalidIPDiag s) else .ok (some ip)

/-- The state record built at the end of a successful `Read`
(part_000 lines 261-268).  `ID` concatenates the raw source-IP literal,
`$` and the raw upstream IP string. -/
def mkState (srcStr : String) (r : IPResponse) (ip : IP) : IpState :=
  { ID := srcStr ++ "$" ++ r.IP
    IPVersion := ipVersion ip
    IsIPv6 := ip.Is6
    IsIPv4 := ip.Is4
    IP := ip.render
    ASNID := r.ASN
    ASNOrg := r.ASNOrg
    SourceIP := srcStr }

/-- `ipDataSource.Read` of part_000.  Note that the error branch of
`rateLimiter.Wait` adds its diagnostic but does not return: the flow
falls through to `client.Do`. -/
def rateDiags (env : HttpEnv) : List Diag :=
  if env.rateLimitWaitErr then [rateLimitDiag] else []

def read (input : ReadInput) (env : HttpEnv) : ReadOutcome :=
  match checkSource (sourceIPString input.sourceIP) with
  | .error d => ⟨[d], none, 0⟩
  | .ok _ =>
    if env.transportErr then ⟨rateDiags env ++ [transportDiag], none, 1⟩
    else if env.statusCode ≠ 200 then
      ⟨rateDiags env ++ [statusDiag env.statusCode env.status], none, 1⟩
    else
      match decodeIPResponse env.body with
      | none => ⟨rateDiags env ++ [decodeDiag], none, 1⟩
      | some r =>
        match ParseIP r.IP with
        | none => ⟨rateDiags env ++ [responseIPDiag r.IP], none, 1⟩
        | some ip => ⟨rateDiags env, some (mkState (sourceIPString input.sourceIP) r ip), 1⟩

/-! ## The combined lookup pipeline (modelled from the specification)

No revision of the data source among the sources at hand accepts both
`source_ip` and `ip_version`: the part_000 revision has only
`source_ip`, the `ip_address_data_source.go` revision only
`ip_version`, and the revision used by `IpProvider` (its
`NewIpDataSource` is referenced by `IpProvider.DataSources`) is in a
file that is missing.  The definitions below model that missing `Read`
from spec sections 3 and 4.4. -/

def invalidInputDiag (src hint : String) : Diag :=
  ⟨"Invalid combination of 'source_ip' and 'ip_version'",
   "The source IP '" ++ src ++ "' does not agree with the requested IP version '"
     ++ hint ++ "'"⟩

def rateLimitTimeoutDiag : Diag :=
  ⟨"Error waiting for rate limit",
   "The rate limiter did not grant a slot before the timeout"⟩

/-- Modelled from the spec: the family-agreement invariant of
`LookupRequest` (spec section 3): a parsed source IP conflicts with an
explicit version hint when the hint names the other family. -/
def familyConflict (src : Option IP) (hint : Option String) : Bool :=
  match src, hint with
  | some ip, some h =>
    if h = IPVersion6 then ip.Is4
    else if h = IPVersion4 then ip.Is6
    else false
  | _, _ => false

/-- Modelled from the spec: the result normalization of the missing
combined revision (spec section 4.4 step 7): the `ip_version` label is
the hint when one was given, the classification of the parsed address
otherwise; the booleans come from the parsed address's actual family;
the `id` concatenates the forced-version label (or empty), the raw
upstream IP string and the raw source-IP literal (or empty). -/
def hintLabel (hint : Option String) (ip : IP) : String :=
  match hint with
  | some v => v
  | none => ipVersion ip

def mkStateCombined (srcStr : String) (hint : Option String) (r : IPResponse) (ip : IP) :
    IpState :=
  { ID := sourceIPString hint ++ "$" ++ r.IP ++ "$" ++ srcStr
    IPVersion := hintLabel hint ip
    IsIPv6 := ip.Is6
    IsIPv4 := ip.Is4
    IP := ip.render
    ASNID := r.ASN
    ASNOrg := r.ASNOrg
    SourceIP := srcStr }

/-- Modelled from the spec: the `Read` of the missing combined revision
(spec section 4.4): validate, throttle (a rate-limit timeout fails the
operation before the request is sent), send, validate status, decode,
normalize. -/
def lookupCombined (sourceIP hint : Option String) (env : HttpEnv) : ReadOutcome :=
  match checkSource (sourceIPString sourceIP) with
  | .error d => ⟨[d], none, 0⟩
  | .ok srcOpt =>
    if familyConflict srcOpt hint then
      ⟨[invalidInputDiag (sourceIPString sourceIP) (sourceIPString hint)], none, 0⟩
    else if env.rateLimitWaitErr then ⟨[rateLimitTimeoutDiag], none, 0⟩
    else if env.transportErr then ⟨[transportDiag], none, 1⟩
    else if env.statusCode ≠ 200 then
      ⟨[statusDiag env.statusCode env.status], none, 1⟩
    else
      match decodeIPResponse env.body with
      | none => ⟨[decodeDiag], none, 1⟩
      | some r =>
        match ParseIP r.IP with
        | none => ⟨[responseIPDiag r.IP], none, 1⟩
        | some ip => ⟨[], some (mkStateCombined (sourceIPString sourceIP) hint r ip), 1⟩

/-! ## Provider configuration (`provider.go`)

`time.ParseDuration` is modelled with exact integer arithmetic for the
fractional part (Go uses `float64` there; the divergence is at most one
nanosecond per group and no modelled behaviour depends on it).
`url.Parse` is modelled by its realistic failure mode (ASCII control
characters); the structural decomposition of the URL is not needed by
any modelled behaviour. -/

def unitLookup (u : String) : Option Int :=
  if u = "ns" then some 1
  else if u = "us" then some 1000
  else if u = "µs" then some 1000
  else if u = "μs" then some 1000
  else if u = "ms" then some 1000000
  else if u = "s" then some 1000000000
  else if u = "m" then some 60000000000
  else if u = "h" then some 3600000000000
  else none

/-- One `[0-9]*(\.[0-9]*)?<unit>` group of a Go duration string, looped
until the input is exhausted. -/
def parseDurGroups : Nat → List Char → Int → Option Int
  | 0, _, _ => none
  | fuel + 1, cs, acc =>
    match cs with
    | [] => some acc
    | c :: _ =>
      if c.isDigit ∨ c = '.' then
        let p1 := spanDigits cs
        let ds := p1.1
        let afterInt := p1.2
        let p2 : List Char × List Char :=
          match afterInt with
          | '.' :: r => spanDigits r
          | _ => ([], afterInt)
        let fds := p2.1
        let r2 : List Char :=
          match afterInt with
          | '.' :: _ => p2.2
          | _ => afterInt
        if ds = [] ∧ fds = [] then none
        else
          let us := r2.takeWhile fun ch => ¬(ch.isDigit ∨ ch = '.')
          let r3 := r2.dropWhile fun ch => ¬(ch.isDigit ∨ ch = '.')
          if us = [] then none
          else
            match unitLookup (String.mk us) with
            | none => none
            | some unit =>
              let v : Int := (natFromDigits ds : Int)
              if int64Max / unit < v then none
              else
                let scale : Int := (10 : Int) ^ fds.length
                let v2 : Int := v * unit + ((natFromDigits fds : Int) * unit) / scale
                if int64Max < v2 then none
                else
                  let acc2 := acc + v2
                  if int64Max < acc2 then none
                  else parseDurGroups fuel r3 acc2
      else none

/-- `time.ParseDuration`, in nanoseconds. -/
def parseDuration (s : String) : Option Int :=
  let p : Bool × List Char :=
    match s.data with
    | '-' :: r => (true, r)
    | '+' :: r => (false, r)
    | r => (false, r)
  let neg := p.1
  let cs := p.2
  if cs = ['0'] then some 0
  else if cs = [] then none
  else (parseDurGroups (cs.length + 1) cs 0).map fun d => if neg then -d else d

structure URL where
  raw : String
deriving Repr, DecidableEq

def containsCtl (s : String) : Bool :=
  s.data.any fun c => c.toNat < 32 ∨ c.toNat = 127

/-- `url.Parse`, modelled by its control-character rejection. -/
def parseURL (s : String) : Option URL :=
  if containsCtl s then none else some ⟨s⟩

inductive ConfigError where
  | badProviderURL (s : String)
  | badTimeout (s : String)
  | badRateLimitRate (s : String)
  | burstTooBig (v maxInt : Int)
  | burstNonPositive (v : Int)
deriving Repr, DecidableEq

/-- The host-supplied provider configuration (`providerData`); `none`
models a null attribute.  `rateLimitBurst` carries an `int64` value. -/
structure ProviderData where
  providerURL : Option String
  timeout : Option String
  rateLimitRate : Option String
  rateLimitBurst : Option Int
deriving Repr, DecidableEq

def DefaultTimeout : String := "5s"
def DefaultProviderURL : String := "https://ifconfig.co/"
def DefaultRateLimitRate : String := "500ms"
def DefaultRateLimitBurst : Nat := 1

/-- `rate.NewLimiter(rate.Every(refillInterval), burst)`. -/
structure Limiter where
  refillInterval : Int
  burst : Nat
deriving Repr, DecidableEq

structure ConfiguredProvider where
  ipURL : URL
  timeout : Int
  rateLimiter : Limiter
  configured : Bool
deriving Repr, DecidableEq

def effProviderURL (d : ProviderData) : String :=
  match d.providerURL with
  | none => DefaultProviderURL
  | some v => v

def effTimeout (d : ProviderData) : String :=
  match d.timeout with
  | none => DefaultTimeout
  | some v => v

def effRateLimitRate (d : ProviderData) : String :=
  match d.rateLimitRate with
  | none => DefaultRateLimitRate
  | some v => v

/-- The burst validation of `configureRateLimiter`: the `> math.MaxInt`
check comes before the `<= 0` check, and both come before the limiter is
constructed.  `maxInt` is the platform's `math.MaxInt`. -/
def configureBurst (maxInt : Int) (burst : Option Int) : Except ConfigError Nat :=
  match burst with
  | none => .ok DefaultRateLimitBurst
  | some v =>
    if maxInt < v then .error (.burstTooBig v maxInt)
    else if v ≤ 0 then .error (.burstNonPositive v)
    else .ok v.toNat

/-- `provider.Configure`: URL, then timeout, then rate limiter; the
`configured` flag becomes true only when every step succeeded. -/
def configure (maxInt : Int) (d : ProviderData) : Except ConfigError ConfiguredProvider :=
  match parseURL (effProviderURL d) with
  | none => .error (.badProviderURL (effProviderURL d))
  | some u =>
    match parseDuration (effTimeout d) with
    | none => .error (.badTimeout (effTimeout d))
    | some t =>
      match parseDuration (effRateLimitRate d) with
      | none => .error (.badRateLimitRate (effRateLimitRate d))
      | some rl =>
        match configureBurst maxInt d.rateLimitBurst with
        | .error e => .error e
        | .ok b => .ok ⟨u, t, ⟨rl, b⟩, true⟩

/-- A lookup can only borrow a successfully built configuration (spec
section 3: if configuration fails, no lookups occur). -/
def readWithProvider (cfg : Except ConfigError ConfiguredProvider) (input : ReadInput)
    (env : HttpEnv) : Option ReadOutcome :=
  match cfg with
  | .error _ => none
  | .ok _ => some (read input env)

/-! ## Shared lemmas -/

theorem ParseIP_family (s : String) (ip : IP) (h : ParseIP s = some ip) :
    (ip.Is4 = true ∧ ip.Is6 = false) ∨ (ip.Is4 = false ∧ ip.Is6 = true) := by
  unfold ParseIP at h
  split at h
  · rcases Option.map_eq_some'.mp h with ⟨⟨a, b, c, d⟩, -, rfl⟩
    exact Or.inl ⟨rfl, rfl⟩
  · split at h
    · cases h
      exact Or.inr ⟨rfl, rfl⟩
    · exact absurd h (by simp)
  · exact absurd h (by simp)

theorem ParseIP_ne_zero (s : String) (ip : IP) (h : ParseIP s = some ip) :
    ip ≠ IP.zero := by
  intro hz
  subst hz
  rcases ParseIP_family s _ h with ⟨h4, -⟩ | ⟨-, h6⟩
  · simp [IP.Is4] at h4
  · simp [IP.Is6] at h6

theorem ipVersion_unknown_iff (ip : IP) : ipVersion ip = IPUnknown ↔ ip = IP.zero := by
  cases ip <;> simp [ipVersion, IP.Is4, IP.Is6, IPVersion4, IPVersion6, IPUnknown]

theorem empty_ParseIP : ParseIP ("") = none := rfl

/-- Inversion of a successful part_000 `Read`: the state was built by
`mkState` from the decoded body and the parsed response IP. -/
theorem read_state_eq (input : ReadInput) (env : HttpEnv) (st : IpState)
    (h : (read input env).state = some st) :
    ∃ r ip, decodeIPResponse env.body = some r ∧ ParseIP r.IP = some ip ∧
      st = mkState (sourceIPString input.sourceIP) r ip := by
  unfold read at h
  cases hcs : checkSource (sourceIPString input.sourceIP) with
  | error d => rw [hcs] at h; simp at h
  | ok o =>
    rw [hcs] at h
    by_cases htr : env.transportErr = true
    · simp [htr] at h
    · by_cases hst : env.statusCode = 200
      · cases hdec : decodeIPResponse env.body with
        | none => simp [htr, hst, hdec] at h
        | some r =>
          cases hip : ParseIP r.IP with
          | none => simp [htr, hst, hdec, hip] at h
          | some ip =>
            refine ⟨r, ip, rfl, hip, ?_⟩
            simp [htr, hst, hdec, hip] at h
            exact h.symm
      · simp [htr, hst] at h

/-- Inversion of a successful combined lookup: the state was built by
`mkStateCombined` from the decoded body and the parsed response IP. -/
theorem lookupCombined_state_eq (sourceIP hint : Option String) (env : HttpEnv) (st : IpState)
    (h : (lookupCombined sourceIP hint env).state = some st) :
    ∃ r ip, decodeIPResponse env.body = some r ∧ ParseIP r.IP = some ip ∧
      st = mkStateCombined (sourceIPString sourceIP) hint r ip := by
  unfold lookupCombined at h
  cases hcs : checkSource (sourceIPString sourceIP) with
  | error d => rw [hcs] at h; simp at h
  | ok o =>
    rw [hcs] at h
    by_cases hconf : familyConflict o hint = true
    · simp [hconf] at h
    · by_cases hrl : env.rateLimitWaitErr = true
      · simp [hconf, hrl] at h
      · by_cases htr : env.transportErr = true
        · simp [hconf, hrl, htr] at h
        · by_cases hst : env.statusCode = 200
          · cases hdec : decodeIPResponse env.body with
            | none => simp [hconf, hrl, htr, hst, hdec] at h
            | some r =>
              cases hip : ParseIP r.IP with
              | none => simp [hconf, hrl, htr, hst, hdec, hip] at h
              | some ip =>
                refine ⟨r, ip, rfl, hip, ?_⟩
                simp [hconf, hrl, htr, hst, hdec, hip] at h
                exact h.symm
          · simp [hconf, hrl, htr, hst] at h

/-- `Except` success flag (as Go's "all configuration steps returned true"). -/
def exceptOk {ε α : Type} : Except ε α → Bool
  | .ok _ => true
  | .error _ => false

/-! ## Concrete fixtures -/

def okBody : String :=
  "\x7b\"ip\":\"203.0.113.5\",\"asn\":\"AS64500\",\"asn_org\":\"Example\"\x7d"

def okEnv : HttpEnv := ⟨false, false, 200, "200 OK", okBody⟩

def rlEnv : HttpEnv := ⟨true, false, 200, "200 OK", okBody⟩

def badIPBody : String := "\x7b\"ip\":\"banana\"\x7d"

def badIPEnv : HttpEnv := ⟨false, false, 200, "200 OK", badIPBody⟩

def v6Body : String := "\x7b\"ip\":\"2001:db8::1\"\x7d"

def v6Env : HttpEnv := ⟨false, false, 200, "200 OK", v6Body⟩

def err503Env : HttpEnv := ⟨false, false, 503, "503 Service Unavailable", ""⟩

/-! ## The claims -/

/-- C1, counterexample: the id produced by the part_000 `Read` for source
IP `0.0.0.0` and upstream IP `203.0.113.5` is `0.0.0.0$203.0.113.5`: the
raw source-IP literal comes first and there is no version-label
component, so the id does not match the claimed concatenation
(label, separator, upstream IP, separator, source IP) under either
reading of "label (if any)". -/
theorem C1_counterexample :
    (read ⟨some ("0.0.0.0")⟩ okEnv).state
      = some ⟨"0.0.0.0$203.0.113.5", IPVersion4, false, true, "203.0.113.5",
              "AS64500", "Example", "0.0.0.0"⟩
    ∧ ("0.0.0.0$203.0.113.5" : String) ≠ "$203.0.113.5$0.0.0.0"
    ∧ ("0.0.0.0$203.0.113.5" : String) ≠ "203.0.113.5$0.0.0.0" := by decide

/-- C1 (amended): for every successful lookup of the part_000 revision,
the result field `id` is derived by concatenating the raw source-IP
literal (or empty), a separator, and the raw upstream IP string, in that
order; there is no version-label component. -/
theorem C1_amended_id_concatenation (input : ReadInput) (env : HttpEnv) (st : IpState)
    (h : (read input env).state = some st) :
    ∃ r, decodeIPResponse env.body = some r ∧
      st.ID = sourceIPString input.sourceIP ++ "$" ++ r.IP := by
  rcases read_state_eq input env st h with ⟨r, ip, hdec, hip, rfl⟩
  exact ⟨r, hdec, rfl⟩

theorem C1_amended_witness :
    ∃ r, decodeIPResponse okEnv.body = some r ∧
      (⟨"0.0.0.0$203.0.113.5", IPVersion4, false, true, "203.0.113.5",
        "AS64500", "Example", "0.0.0.0"⟩ : IpState).ID
        = sourceIPString (some ("0.0.0.0")) ++ "$" ++ r.IP :=
  C1_amended_id_concatenation ⟨some ("0.0.0.0")⟩ okEnv _ (by decide)

/-- C2: at a failing input where the rate limiter's `Wait` returns an
error, the part_000 `Read` adds the rate-limit diagnostic (the operation
fails) but, lacking a `return` in that branch — every sibling error
branch has one — it still performs the HTTP request and even sets state:
the claim's "no HTTP request is sent" is violated by the code. -/
theorem C2_rate_limit_timeout_still_sends :
    (read ⟨none⟩ rlEnv).diags = [rateLimitDiag]
    ∧ (read ⟨none⟩ rlEnv).requestCount = 1
    ∧ (read ⟨none⟩ rlEnv).state.isSome = true := by decide

/-- C3 (modelled from the spec): when both a source IP and an explicit
version hint are given and their address families disagree, the combined
lookup is rejected with the invalid-input diagnostic and performs no
HTTP request. -/
theorem C3_conflicting_family_rejected (s hintv : String) (env : HttpEnv) (ip : IP)
    (hparse : ParseIP s = some ip)
    (hconf : (hintv = IPVersion4 ∧ ip.Is6 = true) ∨ (hintv = IPVersion6 ∧ ip.Is4 = true)) :
    lookupCombined (some s) (some hintv) env
      = ⟨[invalidInputDiag s hintv], none, 0⟩ := by
  have hne : ¬(s = "") := by
    intro he
    rw [he, empty_ParseIP] at hparse
    cases hparse
  have hz : ip.IsZero = false := by
    rcases ParseIP_family s ip hparse with ⟨h4, -⟩ | ⟨-, h6⟩ <;>
      cases ip <;> simp_all [IP.Is4, IP.Is6, IP.IsZero]
  have hcs : checkSource s = .ok (some ip) := by
    unfold checkSource
    rw [if_neg hne, hparse]
    simp [hz]
  have hfc : familyConflict (some ip) (some hintv) = true := by
    rcases hconf with ⟨rfl, h6⟩ | ⟨rfl, h4⟩
    · simp [familyConflict, IPVersion4, IPVersion6, h6]
    · simp [familyConflict, IPVersion4, IPVersion6, h4]
  unfold lookupCombined
  simp only [sourceIPString]
  rw [hcs]
  simp [hfc]

theorem C3_witness :
    lookupCombined (some ("::")) (some ("v4")) okEnv
      = ⟨[invalidInputDiag ("::") ("v4")], none, 0⟩ :=
  C3_conflicting_family_rejected ("::") ("v4") okEnv (IP.v6 0 0 0 0 0 0 0 0)
    (by decide) (Or.inl ⟨rfl, by decide⟩)

/-- C4 (modelled from the spec): every successful combined lookup labels
`ip_version` with the explicit hint when one was carried, and with the
classification of the parsed response address otherwise, while the
booleans `is_ipv4`/`is_ipv6` come from the parsed address's actual
family, independent of the hint. -/
theorem C4_version_label_and_booleans (sourceIP hint : Option String) (env : HttpEnv)
    (st : IpState) (h : (lookupCombined sourceIP hint env).state = some st) :
    ∃ r ip, decodeIPResponse env.body = some r ∧ ParseIP r.IP = some ip ∧
      st.IPVersion = hintLabel hint ip
      ∧ st.IsIPv4 = ip.Is4 ∧ st.IsIPv6 = ip.Is6 := by
  rcases lookupCombined_state_eq sourceIP hint env st h with ⟨r, ip, hdec, hip, rfl⟩
  exact ⟨r, ip, hdec, hip, rfl, rfl, rfl⟩

theorem C4_witness :
    ∃ r ip, decodeIPResponse v6Env.body = some r ∧ ParseIP r.IP = some ip ∧
      (⟨"v6$2001:db8::1$", "v6", true, false, "2001:db8::1", "", "", ""⟩ : IpState).IPVersion
        = hintLabel (some ("v6")) ip
      ∧ (⟨"v6$2001:db8::1$", "v6", true, false, "2001:db8::1", "", "", ""⟩ : IpState).IsIPv4
          = ip.Is4
      ∧ (⟨"v6$2001:db8::1$", "v6", true, false, "2001:db8::1", "", "", ""⟩ : IpState).IsIPv6
          = ip.Is6 :=
  C4_version_label_and_booleans none (some ("v6")) v6Env _ (by decide)

/-- C5: for the upstream body
`{"ip":"203.0.113.5","asn":"AS64500","asn_org":"Example"}` with status
200, the part_000 `Read` produces exactly ip `203.0.113.5`, ip_version
`v4`, is_ipv4 true, is_ipv6 false, asn_id `AS64500`, asn_org `Example`
(and no diagnostics). -/
theorem C5_round_trip :
    read ⟨none⟩ okEnv
      = ⟨[], some ⟨"$203.0.113.5", IPVersion4, false, true, "203.0.113.5",
                   "AS64500", "Example", ""⟩, 1⟩ := by decide

/-- C6: an upstream response whose `ip` field does not parse always
fails the lookup with the response-IP diagnostic and produces no state;
the classifier yields `unknown` only for the zero IP; a successfully
parsed literal never classifies as `unknown`; and no produced state is
ever labelled `unknown`. -/
theorem C6_unparsable_response_ip :
    (∀ (input : ReadInput) (env : HttpEnv) (r : IPResponse),
        (∃ o, checkSource (sourceIPString input.sourceIP) = .ok o) →
        env.transportErr = false → env.statusCode = 200 →
        decodeIPResponse env.body = some r → ParseIP r.IP = none →
        read input env = ⟨rateDiags env ++ [responseIPDiag r.IP], none, 1⟩)
    ∧ (∀ ip : IP, ipVersion ip = IPUnknown ↔ ip = IP.zero)
    ∧ (∀ (s : String) (ip : IP), ParseIP s = some ip → ipVersion ip ≠ IPUnknown)
    ∧ (∀ (input : ReadInput) (env : HttpEnv) (st : IpState),
        (read input env).state = some st → st.IPVersion ≠ IPUnknown) := by
  refine ⟨?_, ipVersion_unknown_iff, ?_, ?_⟩
  · intro input env r hsrc htr hst hdec hip
    rcases hsrc with ⟨o, ho⟩
    unfold read
    rw [ho]
    simp [htr, hst, hdec, hip]
  · intro s ip h hu
    exact ParseIP_ne_zero s ip h ((ipVersion_unknown_iff ip).mp hu)
  · intro input env st h hu
    rcases read_state_eq input env st h with ⟨r, ip, -, hip, rfl⟩
    exact ParseIP_ne_zero r.IP ip hip ((ipVersion_unknown_iff ip).mp hu)

theorem C6_witness :
    read ⟨none⟩ badIPEnv = ⟨rateDiags badIPEnv ++ [responseIPDiag ("banana")], none, 1⟩
    ∧ ipVersion (IP.v6 8193 3512 0 0 0 0 0 1) ≠ IPUnknown :=
  ⟨C6_unparsable_response_ip.1 ⟨none⟩ badIPEnv
      ⟨"banana", 0, "", "", false, "", "", "", "", "", "", ""⟩
      ⟨none, rfl⟩ rfl rfl (by decide) (by decide),
   C6_unparsable_response_ip.2.2.1 ("2001:db8::1") (IP.v6 8193 3512 0 0 0 0 0 1) (by decide)⟩

/-- C7: a non-200 upstream response fails the part_000 `Read` with the
status diagnostic (whose detail carries the status code and status
text), performs exactly one HTTP request (no retry), and produces no
state. -/
theorem C7_non200_status (input : ReadInput) (env : HttpEnv)
    (hsrc : ∃ o, checkSource (sourceIPString input.sourceIP) = .ok o)
    (htr : env.transportErr = false) (hst : env.statusCode ≠ 200) :
    read input env = ⟨rateDiags env ++ [statusDiag env.statusCode env.status], none, 1⟩
    ∧ (statusDiag env.statusCode env.status).detail
        = "The IP information provider responded with the status code "
            ++ natStr env.statusCode ++ " '" ++ env.status ++ "'" := by
  rcases hsrc with ⟨o, ho⟩
  refine ⟨?_, rfl⟩
  unfold read
  rw [ho]
  simp [htr, hst]

theorem C7_witness :
    read ⟨none⟩ err503Env
      = ⟨rateDiags err503Env ++ [statusDiag 503 ("503 Service Unavailable")], none, 1⟩
    ∧ (statusDiag 503 ("503 Service Unavailable")).detail
        = "The IP information provider responded with the status code "
            ++ natStr 503 ++ " '" ++ "503 Service Unavailable" ++ "'" :=
  C7_non200_status ⟨none⟩ err503Env ⟨none, rfl⟩ rfl (by decide)

/-- C8: with a 64-bit `math.MaxInt`, provider configuration succeeds if
and only if the base URL parses, the timeout and rate duration strings
parse, and the effective burst is at least 1; and no lookup runs against
a failed configuration. -/
theorem C8_configure_iff (d : ProviderData)
    (hrange : ∀ v, d.rateLimitBurst = some v → v ≤ int64Max) :
    ((exceptOk (configure int64Max d) = true) ↔
      ((parseURL (effProviderURL d)).isSome = true
        ∧ (parseDuration (effTimeout d)).isSome = true
        ∧ (parseDuration (effRateLimitRate d)).isSome = true
        ∧ 1 ≤ (match d.rateLimitBurst with | none => (1 : Int) | some v => v)))
    ∧ (∀ (input : ReadInput) (env : HttpEnv), exceptOk (configure int64Max d) = false →
        readWithProvider (configure int64Max d) input env = none) := by
  constructor
  · unfold configure
    cases hurl : parseURL (effProviderURL d) with
    | none => simp [exceptOk]
    | some u =>
      cases ht : parseDuration (effTimeout d) with
      | none => simp [exceptOk]
      | some t =>
        cases hr : parseDuration (effRateLimitRate d) with
        | none => simp [exceptOk]
        | some rl =>
          cases hb : d.rateLimitBurst with
          | none => simp [configureBurst, exceptOk]
          | some v =>
            have hv := hrange v hb
            unfold configureBurst
            by_cases hle : v ≤ 0
            · have hnl : ¬(int64Max < v) := by omega
              simp [hnl, hle, exceptOk]
              omega
            · have hnl : ¬(int64Max < v) := by omega
              simp [hnl, hle, exceptOk]
              omega
  · intro input env hfail
    unfold readWithProvider
    cases hc : configure int64Max d with
    | error e => rfl
    | ok c =>
      rw [hc] at hfail
      simp [exceptOk] at hfail

theorem C8_witness :
    ((exceptOk (configure int64Max ⟨none, none, none, none⟩) = true) ↔
      ((parseURL (effProviderURL ⟨none, none, none, none⟩)).isSome = true
        ∧ (parseDuration (effTimeout ⟨none, none, none, none⟩)).isSome = true
        ∧ (parseDuration (effRateLimitRate ⟨none, none, none, none⟩)).isSome = true
        ∧ 1 ≤ (match (⟨none, none, none, none⟩ : ProviderData).rateLimitBurst with
               | none => (1 : Int) | some v => v)))
    ∧ (∀ (input : ReadInput) (env : HttpEnv),
        exceptOk (configure int64Max ⟨none, none, none, none⟩) = false →
        readWithProvider (configure int64Max ⟨none, none, none, none⟩) input env = none) :=
  C8_configure_iff ⟨none, none, none, none⟩ (by intro v hv; cases hv)

/-- C9: every state produced by the part_000 `Read` has exactly one of
`is_ipv4`/`is_ipv6` set, and its `ip_version` label agrees with the set
boolean, because all three derive from the same parsed address. -/
theorem C9_exclusive_family_booleans (input : ReadInput) (env : HttpEnv) (st : IpState)
    (h : (read input env).state = some st) :
    ((st.IsIPv4 = true ∧ st.IsIPv6 = false) ∨ (st.IsIPv4 = false ∧ st.IsIPv6 = true))
    ∧ (st.IsIPv6 = true → st.IPVersion = IPVersion6)
    ∧ (st.IsIPv4 = true → st.IPVersion = IPVersion4) := by
  rcases read_state_eq input env st h with ⟨r, ip, -, hip, rfl⟩
  rcases ParseIP_family r.IP ip hip with ⟨h4, h6⟩ | ⟨h4, h6⟩ <;>
    simp [mkState, ipVersion, h4, h6]

theorem C9_witness :
    (((⟨"$203.0.113.5", IPVersion4, false, true, "203.0.113.5",
        "AS64500", "Example", ""⟩ : IpState).IsIPv4 = true
      ∧ (⟨"$203.0.113.5", IPVersion4, false, true, "203.0.113.5",
          "AS64500", "Example", ""⟩ : IpState).IsIPv6 = false)
     ∨ ((⟨"$203.0.113.5", IPVersion4, false, true, "203.0.113.5",
          "AS64500", "Example", ""⟩ : IpState).IsIPv4 = false
        ∧ (⟨"$203.0.113.5", IPVersion4, false, true, "203.0.113.5",
            "AS64500", "Example", ""⟩ : IpState).IsIPv6 = true))
    ∧ ((⟨"$203.0.113.5", IPVersion4, false, true, "203.0.113.5",
         "AS64500", "Example", ""⟩ : IpState).IsIPv6 = true
        → (⟨"$203.0.113.5", IPVersion4, false, true, "203.0.113.5",
            "AS64500", "Example", ""⟩ : IpState).IPVersion = IPVersion6)
    ∧ ((⟨"$203.0.113.5", IPVersion4, false, true, "203.0.113.5",
         "AS64500", "Example", ""⟩ : IpState).IsIPv4 = true
        → (⟨"$203.0.113.5", IPVersion4, false, true, "203.0.113.5",
            "AS64500", "Example", ""⟩ : IpState).IPVersion = IPVersion4) :=
  C9_exclusive_family_booleans ⟨none⟩ okEnv _ (by decide)

/-- C10: a host-supplied burst above the platform's `math.MaxInt` is
rejected as a configuration error before the limiter is built, and a
successful configuration implies the burst lies in `[1, maxInt]`. -/
theorem C10_burst_range (maxInt : Int) (d : ProviderData) (v : Int)
    (hb : d.rateLimitBurst = some v) :
    (maxInt < v →
      configureBurst maxInt d.rateLimitBurst = .error (.burstTooBig v maxInt)
      ∧ exceptOk (configure maxInt d) = false)
    ∧ (exceptOk (configure maxInt d) = true → 1 ≤ v ∧ v ≤ maxInt) := by
  constructor
  · intro hlt
    constructor
    · rw [hb]
      unfold configureBurst
      simp [hlt]
    · unfold configure
      cases parseURL (effProviderURL d) with
      | none => rfl
      | some u =>
        cases parseDuration (effTimeout d) with
        | none => rfl
        | some t =>
          cases parseDuration (effRateLimitRate d) with
          | none => rfl
          | some rl =>
            rw [hb]
            unfold configureBurst
            simp [hlt, exceptOk]
  · intro hok
    unfold configure configureBurst at hok
    rw [hb] at hok
    cases hurl : parseURL (effProviderURL d) with
    | none => rw [hurl] at hok; simp [exceptOk] at hok
    | some u =>
      rw [hurl] at hok
      cases ht : parseDuration (effTimeout d) with
      | none => rw [ht] at hok; simp [exceptOk] at hok
      | some t =>
        rw [ht] at hok
        cases hr : parseDuration (effRateLimitRate d) with
        | none => rw [hr] at hok; simp [exceptOk] at hok
        | some rl =>
          rw [hr] at hok
          by_cases hlt : maxInt < v
          · simp [hlt, exceptOk] at hok
          · by_cases hle : v ≤ 0
            · simp [hlt, hle, exceptOk] at hok
            · exact ⟨by omega, by omega⟩

theorem C10_witness :
    configureBurst 2147483647 (some (2147483648 : Int))
      = .error (.burstTooBig 2147483648 2147483647)
    ∧ exceptOk (configure 2147483647 ⟨none, none, none, some 2147483648⟩) = false :=
  (C10_burst_range 2147483647 ⟨none, none, none, some 2147483648⟩ 2147483648 rfl).1
    (by decide)

end PublicIP
